import Mathlib

/-!
Verification development for the elder-advice-agent core services:
the profiles/consent store (`profiles_consent_service.py`), the check-in
and escalation tracker (`checkin_service.py`) and their shared audit
logger (`audit_log.py`).

Modelling conventions:
* timestamps (Python `datetime`) are integers counting seconds; a
  `timedelta(minutes=m)` is `60 * m` seconds, which preserves every
  comparison the code performs (the code only subtracts and compares);
* Python `dict` objects are association lists with the dict semantics
  of `get`, assignment, and `setdefault` (assignment replaces in place,
  a fresh key is appended at the end);
* `set[str]` is `Finset String`;
* the process-wide `audit_logger` is threaded explicitly through each
  operation as a `List AuditEntry`; the wall-clock timestamp the logger
  prepends to the formatted string is ambient state no claim mentions,
  so an entry keeps the structured actor/action/details triple;
* a Python `KeyError` raised by `self.profiles[user_id]` is the
  not-found failure of the lookup, modelled as `Except.error .notFound`;
  the failing operation also returns the (untouched) store so that
  state preservation on failure is expressible.
-/

/-! ## Association lists with Python dict semantics -/

namespace alist

/-- Python `d.get(k)`: the value at the first matching key, if any. -/
def get {α : Type} : List (String × α) → String → Option α
  | [], _ => none
  | (k', v') :: rest, k => if k' = k then some v' else get rest k

/-- Python `d[k] = v`: replace the value at an existing key in place, otherwise
append the new binding at the end (Python dict insertion order). -/
def set {α : Type} : List (String × α) → String → α → List (String × α)
  | [], k, v => [(k, v)]
  | (k', v') :: rest, k, v =>
    if k' = k then (k, v) :: rest else (k', v') :: set rest k v

/-- Python `d.setdefault(k, v)`: return the stored value and the dict, inserting
`v` at the end first when the key is absent. -/
def setdefault {α : Type} (l : List (String × α)) (k : String) (v : α) :
    α × List (String × α) :=
  match get l k with
  | some w => (w, l)
  | none => (v, l ++ [(k, v)])

end alist

/-! ## Audit log (`audit_log.py`) -/

/-- One audit record: `log(actor, action, details="")` appends
`"{timestamp} actor={actor} action={action}[ details={details}]"`; the
structured triple is kept, the ambient wall-clock prefix is not. -/
structure AuditEntry where
  actor : String
  action : String
  details : String
deriving Repr, DecidableEq

/-- Method `AuditLogger.log`: append one entry. -/
def auditLog (entries : List AuditEntry) (actor action details : String) :
    List AuditEntry :=
  entries ++ [⟨actor, action, details⟩]

/-! ## Profiles and consent store (`profiles_consent_service.py`) -/

structure Profile where
  user_id : String
  name : String
  age : Int
deriving Repr, DecidableEq

structure ConsentRecord where
  user_id : String
  viewer_role : String
  allowed_fields : Finset String
  granted_at : Int
deriving DecidableEq

structure ProfileCreate where
  user_id : String
  name : String
  age : Int
deriving Repr, DecidableEq

structure ConsentGrantIn where
  user_id : String
  viewer_role : String
  allowed_fields : List String
deriving Repr, DecidableEq

/-- A profile field value (`getattr` result: `name` is a string, `age` an
integer). -/
inductive FieldValue where
  | str (s : String)
  | int (n : Int)
deriving Repr, DecidableEq

/-- Python `getattr(profile, field_name)` as `view_profile` applies it, i.e. on
`"name"` and `"age"` only. -/
def Profile.field (p : Profile) (f : String) : FieldValue :=
  if f = "name" then .str p.name else .int p.age

/-- Output `ProfileViewOut`: the ordered mapping of field name to value. -/
structure ProfileViewOut where
  fields : List (String × FieldValue)
deriving Repr, DecidableEq

/-- The one failure kind the store produces: the `KeyError` of
`self.profiles[user_id]` on an unknown key. -/
inductive ServiceError where
  | notFound
deriving Repr, DecidableEq

structure ProfilesConsentStore where
  profiles : List (String × Profile)
  consents : List ConsentRecord
deriving DecidableEq

/-- Method `add_profile`: store (or silently overwrite) the profile under its
`user_id`, then log `profile_create`. -/
def ProfilesConsentStore.add_profile (s : ProfilesConsentStore)
    (audit : List AuditEntry) (data : ProfileCreate) :
    ProfilesConsentStore × List AuditEntry :=
  let profiles' :=
    alist.set s.profiles data.user_id (Profile.mk data.user_id data.name data.age)
  ({ s with profiles := profiles' },
   auditLog audit data.user_id "profile_create" "")

/-- Method `grant_consent`: append a `ConsentRecord` stamped with the ambient
clock reading `now` (`datetime.utcnow()`), then log `consent_grant`. -/
def ProfilesConsentStore.grant_consent (s : ProfilesConsentStore)
    (audit : List AuditEntry) (data : ConsentGrantIn) (now : Int) :
    ProfilesConsentStore × List AuditEntry :=
  let record :=
    ConsentRecord.mk data.user_id data.viewer_role data.allowed_fields.toFinset now
  ({ s with consents := s.consents ++ [record] },
   auditLog audit data.user_id "consent_grant" data.viewer_role)

/-- Method `_get_allowed_fields`: fold `|=` over the records matching
`(user_id, role)`, starting from the empty set. -/
def ProfilesConsentStore.get_allowed_fields (consents : List ConsentRecord)
    (user_id role : String) : Finset String :=
  consents.foldl
    (fun fields c =>
      if c.user_id = user_id ∧ c.viewer_role = role
      then fields ∪ c.allowed_fields else fields)
    ∅

/-- Method `view_profile`: look the profile up (`KeyError` → `.notFound`, nothing
mutated), compute the allowed set, loop over `["name", "age"]` keeping the
granted fields in that order, log `profile_view` with the viewer role as
actor. -/
def ProfilesConsentStore.view_profile (s : ProfilesConsentStore)
    (audit : List AuditEntry) (user_id role : String) :
    Except ServiceError ProfileViewOut × ProfilesConsentStore × List AuditEntry :=
  match alist.get s.profiles user_id with
  | none => (.error .notFound, s, audit)
  | some profile =>
    let allowed := ProfilesConsentStore.get_allowed_fields s.consents user_id role
    let result := ["name", "age"].foldl
      (fun r f => if f ∈ allowed then r ++ [(f, profile.field f)] else r)
      ([] : List (String × FieldValue))
    (.ok ⟨result⟩, s,
     auditLog audit role "profile_view" ("user_id=" ++ user_id))

/-! ## Check-in and escalation tracker (`checkin_service.py`) -/

structure CaregiverPrefs where
  user_id : String
  caregiver_contact : String
  escalate_after_minutes : Int
deriving Repr, DecidableEq

structure CheckInState where
  user_id : String
  last_prompt : Option Int
  last_response : Option Int
deriving Repr, DecidableEq

structure CheckInPrefsIn where
  user_id : String
  caregiver_contact : String
  escalate_after_minutes : Int
deriving Repr, DecidableEq

structure CheckInStatusOut where
  user_id : String
  last_prompt : Option Int
  last_response : Option Int
  escalation_needed : Bool
deriving Repr, DecidableEq

structure CheckInService where
  prefs : List (String × CaregiverPrefs)
  state : List (String × CheckInState)
  escalations : List String
deriving DecidableEq

/-- The fresh `CheckInState(user_id=user_id)` with both timestamps unset. -/
def freshState (user_id : String) : CheckInState :=
  ⟨user_id, none, none⟩

/-- Method `set_prefs`: keyed upsert of the prefs, `setdefault` the state, log
`checkin_set_prefs`. -/
def CheckInService.set_prefs (svc : CheckInService) (audit : List AuditEntry)
    (data : CheckInPrefsIn) : CheckInService × List AuditEntry :=
  let prefs' := alist.set svc.prefs data.user_id
    (CaregiverPrefs.mk data.user_id data.caregiver_contact
      data.escalate_after_minutes)
  let state' := (alist.setdefault svc.state data.user_id
    (freshState data.user_id)).2
  ({ svc with prefs := prefs', state := state' },
   auditLog audit data.user_id "checkin_set_prefs" "")

/-- Method `send_prompt`: `setdefault` the state, set `last_prompt := now` on it,
log `checkin_prompt_sent`. -/
def CheckInService.send_prompt (svc : CheckInService) (audit : List AuditEntry)
    (user_id : String) (now : Int) : CheckInService × List AuditEntry :=
  let sd := alist.setdefault svc.state user_id (freshState user_id)
  let state₂ := alist.set sd.2 user_id { sd.1 with last_prompt := some now }
  ({ svc with state := state₂ },
   auditLog audit user_id "checkin_prompt_sent" "")

/-- Method `record_response`: `setdefault` the state, set `last_response := now`
on it, log `checkin_response_received`. -/
def CheckInService.record_response (svc : CheckInService)
    (audit : List AuditEntry) (user_id : String) (now : Int) :
    CheckInService × List AuditEntry :=
  let sd := alist.setdefault svc.state user_id (freshState user_id)
  let state₂ := alist.set sd.2 user_id { sd.1 with last_response := some now }
  ({ svc with state := state₂ },
   auditLog audit user_id "checkin_response_received" "")

/-- The guard of `evaluate_escalation`:
`prefs and st.last_prompt and (not st.last_response or st.last_response <
st.last_prompt)` followed by
`now - st.last_prompt >= timedelta(minutes=prefs.escalate_after_minutes)`. -/
def shouldEscalate (prefs : Option CaregiverPrefs) (st : CheckInState)
    (now : Int) : Bool :=
  match prefs with
  | none => false
  | some p =>
    match st.last_prompt with
    | none => false
    | some lp =>
      (match st.last_response with
       | none => true
       | some lr => decide (lr < lp)) &&
      decide (now - lp ≥ 60 * p.escalate_after_minutes)

/-- The free-text escalation message
`f"Escalate for {user_id} to {contact} at {now.isoformat()}"` (the instant
rendered as its integer value). -/
def escalationMsg (user_id contact : String) (now : Int) : String :=
  "Escalate for " ++ user_id ++ " to " ++ contact ++ " at " ++ toString now

/-- Method `evaluate_escalation`: `setdefault` the state, read the prefs, and when
the guard holds append one escalation message and log `checkin_escalation`;
always return the status built from the (pre-call) state. -/
def CheckInService.evaluate_escalation (svc : CheckInService)
    (audit : List AuditEntry) (user_id : String) (now : Int) :
    CheckInStatusOut × CheckInService × List AuditEntry :=
  let sd := alist.setdefault svc.state user_id (freshState user_id)
  let st := sd.1
  let svc₁ := { svc with state := sd.2 }
  let prefs := alist.get svc.prefs user_id
  let escalate := shouldEscalate prefs st now
  let next :=
    match prefs with
    | some p =>
      if shouldEscalate (some p) st now then
        let msg := escalationMsg user_id p.caregiver_contact now
        ({ svc₁ with escalations := svc₁.escalations ++ [msg] },
         auditLog audit user_id "checkin_escalation" msg)
      else (svc₁, audit)
    | none => (svc₁, audit)
  (⟨user_id, st.last_prompt, st.last_response, escalate⟩, next.1, next.2)

/-! ## Spec-side definitions (for refinement statements) -/

/-- Modelled from the spec: the effective allowed-field set for a
(user, role) pair is "the union of `allowed_fields` over all
ConsentRecords where `record.user_id == user_id` and
`record.viewer_role == viewer_role`". -/
def consentsUnion (consents : List ConsentRecord) (user_id role : String) :
    Finset String :=
  consents.foldr
    (fun c acc =>
      if c.user_id = user_id ∧ c.viewer_role = role
      then c.allowed_fields ∪ acc else acc)
    ∅

/-- Modelled from the spec: the union of all granted field sets over a
sequence of `grant_consent` calls (each call paired with its ambient
timestamp) matching a (user, role) pair. -/
def grantsUnion (grants : List (ConsentGrantIn × Int)) (user_id role : String) :
    Finset String :=
  grants.foldr
    (fun g acc =>
      if g.1.user_id = user_id ∧ g.1.viewer_role = role
      then g.1.allowed_fields.toFinset ∪ acc else acc)
    ∅

/-- A sequence of `grant_consent` calls applied in order. -/
def applyGrants (s : ProfilesConsentStore) (audit : List AuditEntry)
    (grants : List (ConsentGrantIn × Int)) :
    ProfilesConsentStore × List AuditEntry :=
  grants.foldl
    (fun sa g => ProfilesConsentStore.grant_consent sa.1 sa.2 g.1 g.2)
    (s, audit)

/-- The ConsentRecord a `grant_consent` call appends. -/
def grantRecord (g : ConsentGrantIn × Int) : ConsentRecord :=
  ConsentRecord.mk g.1.user_id g.1.viewer_role g.1.allowed_fields.toFinset g.2

/-- The check-in state `evaluate_escalation` reads for a user: the stored
one, or a fresh one with both timestamps unset when none is stored. -/
def stateOf (svc : CheckInService) (user_id : String) : CheckInState :=
  (alist.get svc.state user_id).getD (freshState user_id)

/-- Modelled from the spec: the escalation condition — a prefs entry
exists, `last_prompt` is set, the prompt is unanswered (`last_response`
unset or strictly earlier than `last_prompt`), and
`now - last_prompt >= escalate_after_minutes` (inclusive boundary). -/
def specEscalationNeeded (svc : CheckInService) (user_id : String)
    (now : Int) : Prop :=
  ∃ p, alist.get svc.prefs user_id = some p ∧
    ∃ lp, (stateOf svc user_id).last_prompt = some lp ∧
      ((stateOf svc user_id).last_response = none ∨
        ∃ lr, (stateOf svc user_id).last_response = some lr ∧ lr < lp) ∧
      now - lp ≥ 60 * p.escalate_after_minutes

/-! ## Association list lemmas -/

theorem alist.get_set_self {α : Type} (l : List (String × α)) (k : String)
    (v : α) : alist.get (alist.set l k v) k = some v := by
  induction l with
  | nil => simp [alist.get, alist.set]
  | cons hd tl ih =>
    by_cases h : hd.1 = k
    · simp [alist.set, h, alist.get]
    · simp [alist.set, h, alist.get, ih]

theorem alist.get_set_ne {α : Type} (l : List (String × α)) (k k' : String)
    (v : α) (h : k' ≠ k) :
    alist.get (alist.set l k v) k' = alist.get l k' := by
  have h' : k ≠ k' := Ne.symm h
  induction l with
  | nil => simp [alist.get, alist.set, h']
  | cons hd tl ih =>
    obtain ⟨a, b⟩ := hd
    by_cases hk : a = k
    · subst hk
      simp [alist.set, alist.get, h']
    · simp [alist.set, hk, alist.get, ih]

theorem alist.set_of_get_none {α : Type} (l : List (String × α))
    (k : String) (v : α) (h : alist.get l k = none) :
    alist.set l k v = l ++ [(k, v)] := by
  induction l with
  | nil => simp [alist.set]
  | cons hd tl ih =>
    by_cases hk : hd.1 = k
    · simp [alist.get, hk] at h
    · simp [alist.get, hk] at h
      simp [alist.set, hk, ih h]

theorem alist.setdefault_fst {α : Type} (l : List (String × α))
    (k : String) (v : α) :
    (alist.setdefault l k v).1 = (alist.get l k).getD v := by
  unfold alist.setdefault
  cases alist.get l k <;> simp

theorem alist.setdefault_snd_some {α : Type} (l : List (String × α))
    (k : String) (v w : α) (h : alist.get l k = some w) :
    (alist.setdefault l k v).2 = l := by
  simp [alist.setdefault, h]

theorem alist.setdefault_snd_none {α : Type} (l : List (String × α))
    (k : String) (v : α) (h : alist.get l k = none) :
    (alist.setdefault l k v).2 = l ++ [(k, v)] := by
  simp [alist.setdefault, h]

theorem alist.get_setdefault_snd {α : Type} (l : List (String × α))
    (k : String) (v : α) :
    alist.get (alist.setdefault l k v).2 k = some ((alist.get l k).getD v) := by
  unfold alist.setdefault
  cases hg : alist.get l k with
  | some w => simp [hg]
  | none =>
    simp only [hg, Option.getD_none]
    induction l with
    | nil => simp [alist.get]
    | cons hd tl ih =>
      by_cases hk : hd.1 = k
      · simp [alist.get, hk] at hg
      · simp [alist.get, hk] at hg ⊢
        exact ih hg

theorem alist.get_append_left {α : Type} (l₁ l₂ : List (String × α))
    (k : String) (w : α) (h : alist.get l₁ k = some w) :
    alist.get (l₁ ++ l₂) k = some w := by
  induction l₁ with
  | nil => simp [alist.get] at h
  | cons hd tl ih =>
    by_cases hk : hd.1 = k
    · simp [alist.get, hk] at h ⊢; exact h
    · simp [alist.get, hk] at h ⊢; exact ih h

theorem alist.get_append_right {α : Type} (l₁ l₂ : List (String × α))
    (k : String) (h : alist.get l₁ k = none) :
    alist.get (l₁ ++ l₂) k = alist.get l₂ k := by
  induction l₁ with
  | nil => simp
  | cons hd tl ih =>
    by_cases hk : hd.1 = k
    · simp [alist.get, hk] at h
    · simp [alist.get, hk] at h ⊢; exact ih h

/-! ## Fold and union lemmas for the consent sets -/

theorem ProfilesConsentStore.get_allowed_fields_foldl_acc
    (consents : List ConsentRecord) (user_id role : String)
    (acc : Finset String) :
    consents.foldl
      (fun fields c =>
        if c.user_id = user_id ∧ c.viewer_role = role
        then fields ∪ c.allowed_fields else fields)
      acc
      = acc ∪ ProfilesConsentStore.get_allowed_fields consents user_id role := by
  induction consents generalizing acc with
  | nil => simp [ProfilesConsentStore.get_allowed_fields]
  | cons c t ih =>
    simp only [ProfilesConsentStore.get_allowed_fields, List.foldl_cons]
    rw [ih, ih (if c.user_id = user_id ∧ c.viewer_role = role
      then ∅ ∪ c.allowed_fields else (∅ : Finset String))]
    by_cases h : c.user_id = user_id ∧ c.viewer_role = role
    · simp [h, Finset.union_assoc]
    · simp [h]

theorem ProfilesConsentStore.get_allowed_fields_append
    (l₁ l₂ : List ConsentRecord) (user_id role : String) :
    ProfilesConsentStore.get_allowed_fields (l₁ ++ l₂) user_id role =
      ProfilesConsentStore.get_allowed_fields l₁ user_id role ∪
        ProfilesConsentStore.get_allowed_fields l₂ user_id role := by
  unfold ProfilesConsentStore.get_allowed_fields
  rw [List.foldl_append]
  exact ProfilesConsentStore.get_allowed_fields_foldl_acc l₂ user_id role _

theorem consentsUnion_cons (c : ConsentRecord) (l : List ConsentRecord)
    (user_id role : String) :
    consentsUnion (c :: l) user_id role =
      if c.user_id = user_id ∧ c.viewer_role = role
      then c.allowed_fields ∪ consentsUnion l user_id role
      else consentsUnion l user_id role := rfl

/-- The code function `_get_allowed_fields` computes exactly the union over
matching consent records that the spec describes. -/
theorem get_allowed_fields_eq_consentsUnion (consents : List ConsentRecord)
    (user_id role : String) :
    ProfilesConsentStore.get_allowed_fields consents user_id role =
      consentsUnion consents user_id role := by
  induction consents with
  | nil => rfl
  | cons c t ih =>
    have h1 : ProfilesConsentStore.get_allowed_fields (c :: t) user_id role =
        ProfilesConsentStore.get_allowed_fields [c] user_id role ∪
          ProfilesConsentStore.get_allowed_fields t user_id role :=
      ProfilesConsentStore.get_allowed_fields_append [c] t user_id role
    rw [h1, ih, consentsUnion_cons]
    by_cases h : c.user_id = user_id ∧ c.viewer_role = role
    · simp [ProfilesConsentStore.get_allowed_fields, h]
    · simp [ProfilesConsentStore.get_allowed_fields, h]

theorem grantsUnion_cons (g : ConsentGrantIn × Int)
    (l : List (ConsentGrantIn × Int)) (user_id role : String) :
    grantsUnion (g :: l) user_id role =
      if g.1.user_id = user_id ∧ g.1.viewer_role = role
      then g.1.allowed_fields.toFinset ∪ grantsUnion l user_id role
      else grantsUnion l user_id role := rfl

theorem consentsUnion_map_grantRecord (grants : List (ConsentGrantIn × Int))
    (user_id role : String) :
    consentsUnion (grants.map grantRecord) user_id role =
      grantsUnion grants user_id role := by
  induction grants with
  | nil => rfl
  | cons g t ih =>
    simp only [List.map_cons, consentsUnion_cons, grantsUnion_cons, grantRecord]
    rw [ih]

theorem grantsUnion_append (l₁ l₂ : List (ConsentGrantIn × Int))
    (user_id role : String) :
    grantsUnion (l₁ ++ l₂) user_id role =
      grantsUnion l₁ user_id role ∪ grantsUnion l₂ user_id role := by
  induction l₁ with
  | nil => simp [grantsUnion]
  | cons g t ih =>
    have h1 : grantsUnion ((g :: t) ++ l₂) user_id role =
        grantsUnion (g :: (t ++ l₂)) user_id role := rfl
    rw [h1, grantsUnion_cons, grantsUnion_cons, ih]
    by_cases h : g.1.user_id = user_id ∧ g.1.viewer_role = role
    · simp [h, Finset.union_assoc]
    · simp [h]

theorem grantsUnion_perm (l₁ l₂ : List (ConsentGrantIn × Int))
    (user_id role : String) (h : l₁.Perm l₂) :
    grantsUnion l₁ user_id role = grantsUnion l₂ user_id role := by
  induction h with
  | nil => rfl
  | cons g _ ih => rw [grantsUnion_cons, grantsUnion_cons, ih]
  | swap g₁ g₂ t =>
    simp only [grantsUnion_cons]
    by_cases h₁ : g₁.1.user_id = user_id ∧ g₁.1.viewer_role = role <;>
      by_cases h₂ : g₂.1.user_id = user_id ∧ g₂.1.viewer_role = role <;>
      simp [h₁, h₂, Finset.union_left_comm]
  | trans _ _ ih₁ ih₂ => rw [ih₁, ih₂]

theorem mem_subset_grantsUnion (l : List (ConsentGrantIn × Int))
    (g : ConsentGrantIn × Int) (user_id role : String) (hg : g ∈ l)
    (hc : g.1.user_id = user_id ∧ g.1.viewer_role = role) :
    g.1.allowed_fields.toFinset ⊆ grantsUnion l user_id role := by
  induction l with
  | nil => cases hg
  | cons h t ih =>
    rw [grantsUnion_cons]
    rcases List.mem_cons.mp hg with heq | hmem
    · rw [← heq, if_pos (heq ▸ hc)]
      exact Finset.subset_union_left
    · by_cases hh : h.1.user_id = user_id ∧ h.1.viewer_role = role
      · rw [if_pos hh]
        exact (ih hmem).trans Finset.subset_union_right
      · rw [if_neg hh]
        exact ih hmem

theorem applyGrants_consents (s : ProfilesConsentStore)
    (audit : List AuditEntry) (grants : List (ConsentGrantIn × Int)) :
    (applyGrants s audit grants).1.consents =
      s.consents ++ grants.map grantRecord := by
  induction grants generalizing s audit with
  | nil => simp [applyGrants]
  | cons g t ih =>
    have hstep : applyGrants s audit (g :: t) =
        applyGrants (ProfilesConsentStore.grant_consent s audit g.1 g.2).1
          (ProfilesConsentStore.grant_consent s audit g.1 g.2).2 t := rfl
    rw [hstep, ih]
    simp [ProfilesConsentStore.grant_consent, grantRecord]

theorem alist.get_setdefault_snd_ne {α : Type} (l : List (String × α))
    (k k' : String) (v : α) (h : k' ≠ k) :
    alist.get (alist.setdefault l k v).2 k' = alist.get l k' := by
  unfold alist.setdefault
  cases hg : alist.get l k with
  | some w => simp
  | none =>
    simp only
    cases hg' : alist.get l k' with
    | some w => exact alist.get_append_left _ _ _ _ hg'
    | none =>
      rw [alist.get_append_right _ _ _ hg']
      simp [alist.get, Ne.symm h]

/-! ## Check-in evaluation lemmas -/

theorem shouldEscalate_iff (prefs : Option CaregiverPrefs) (st : CheckInState)
    (now : Int) :
    shouldEscalate prefs st now = true ↔
      ∃ p, prefs = some p ∧
        ∃ lp, st.last_prompt = some lp ∧
          (st.last_response = none ∨
            ∃ lr, st.last_response = some lr ∧ lr < lp) ∧
          now - lp ≥ 60 * p.escalate_after_minutes := by
  cases prefs with
  | none => simp [shouldEscalate]
  | some p =>
    cases hlp : st.last_prompt with
    | none => simp [shouldEscalate, hlp]
    | some lp =>
      cases hlr : st.last_response with
      | none => simp [shouldEscalate, hlp, hlr]
      | some lr => simp [shouldEscalate, hlp, hlr, and_assoc]

theorem evaluate_escalation_fst (svc : CheckInService) (audit : List AuditEntry)
    (user_id : String) (now : Int) :
    (svc.evaluate_escalation audit user_id now).1 =
      CheckInStatusOut.mk user_id (stateOf svc user_id).last_prompt
        (stateOf svc user_id).last_response
        (shouldEscalate (alist.get svc.prefs user_id) (stateOf svc user_id)
          now) := by
  have h : (svc.evaluate_escalation audit user_id now).1 =
      CheckInStatusOut.mk user_id
        (alist.setdefault svc.state user_id (freshState user_id)).1.last_prompt
        (alist.setdefault svc.state user_id (freshState user_id)).1.last_response
        (shouldEscalate (alist.get svc.prefs user_id)
          (alist.setdefault svc.state user_id (freshState user_id)).1 now) := rfl
  rw [h, alist.setdefault_fst]
  rfl

theorem evaluate_escalation_escalations (svc : CheckInService)
    (audit : List AuditEntry) (user_id : String) (now : Int) :
    (svc.evaluate_escalation audit user_id now).2.1.escalations =
      match alist.get svc.prefs user_id with
      | some p =>
        if shouldEscalate (some p) (stateOf svc user_id) now
        then svc.escalations ++
          [escalationMsg user_id p.caregiver_contact now]
        else svc.escalations
      | none => svc.escalations := by
  unfold CheckInService.evaluate_escalation
  cases hp : alist.get svc.prefs user_id with
  | none => simp [hp]
  | some p =>
    simp only [hp, alist.setdefault_fst, stateOf]
    by_cases hesc : shouldEscalate (some p)
        ((alist.get svc.state user_id).getD (freshState user_id)) now = true
    · simp [hesc]
    · simp [hesc]

theorem evaluate_escalation_audit (svc : CheckInService)
    (audit : List AuditEntry) (user_id : String) (now : Int) :
    (svc.evaluate_escalation audit user_id now).2.2 =
      match alist.get svc.prefs user_id with
      | some p =>
        if shouldEscalate (some p) (stateOf svc user_id) now
        then auditLog audit user_id "checkin_escalation"
          (escalationMsg user_id p.caregiver_contact now)
        else audit
      | none => audit := by
  unfold CheckInService.evaluate_escalation
  cases hp : alist.get svc.prefs user_id with
  | none => simp [hp]
  | some p =>
    simp only [hp, alist.setdefault_fst, stateOf]
    by_cases hesc : shouldEscalate (some p)
        ((alist.get svc.state user_id).getD (freshState user_id)) now = true
    · simp [hesc]
    · simp [hesc]

/-- Evaluation of `view_profile` on a registered profile. -/
theorem view_profile_some (s : ProfilesConsentStore) (audit : List AuditEntry)
    (user_id role : String) (p : Profile)
    (h : alist.get s.profiles user_id = some p) :
    s.view_profile audit user_id role =
      (Except.ok (ProfileViewOut.mk
        ((if "name" ∈ consentsUnion s.consents user_id role
          then [("name", FieldValue.str p.name)] else []) ++
         (if "age" ∈ consentsUnion s.consents user_id role
          then [("age", FieldValue.int p.age)] else []))),
       s, auditLog audit role "profile_view" ("user_id=" ++ user_id)) := by
  unfold ProfilesConsentStore.view_profile
  rw [h]
  simp only [List.foldl_cons, List.foldl_nil,
    get_allowed_fields_eq_consentsUnion]
  by_cases hn : "name" ∈ consentsUnion s.consents user_id role <;>
    by_cases ha : "age" ∈ consentsUnion s.consents user_id role <;>
      simp [hn, ha, Profile.field]

/-! ## Claim theorems -/

/-- Claim C1: for every user, `evaluate_escalation(user_id, now)` returns
`escalation_needed = true` iff a CaregiverPrefs entry exists for the user,
`last_prompt` is set, `last_response` is unset or strictly earlier than
`last_prompt`, and `now - last_prompt` is at least `escalate_after_minutes`
(inclusive boundary); and for a user with no CaregiverPrefs entry it
returns `escalation_needed = false`. -/
theorem C1_escalation_needed_iff (svc : CheckInService)
    (audit : List AuditEntry) (user_id : String) (now : Int) :
    (((svc.evaluate_escalation audit user_id now).1.escalation_needed =
        true) ↔ specEscalationNeeded svc user_id now) ∧
    (alist.get svc.prefs user_id = none →
      (svc.evaluate_escalation audit user_id now).1.escalation_needed =
        false) := by
  constructor
  · rw [evaluate_escalation_fst]
    exact shouldEscalate_iff _ _ _
  · intro hnone
    rw [evaluate_escalation_fst]
    simp [hnone, shouldEscalate]

/-- Witness for C1: with a 30-minute threshold, a prompt at instant 0 and
no response, evaluating at 1800 seconds fires; a user with no prefs entry
never fires. -/
theorem C1_escalation_needed_iff_witness :
    ((CheckInService.mk [("u1", CaregiverPrefs.mk "u1" "cg" 30)]
        [("u1", CheckInState.mk "u1" (some 0) none)]
        []).evaluate_escalation [] "u1" 1800).1.escalation_needed = true ∧
    ((CheckInService.mk [] [] []).evaluate_escalation []
        "u2" 1800).1.escalation_needed = false :=
  ⟨(C1_escalation_needed_iff
      (CheckInService.mk [("u1", CaregiverPrefs.mk "u1" "cg" 30)]
        [("u1", CheckInState.mk "u1" (some 0) none)] [])
      [] "u1" 1800).1.mpr
    ⟨CaregiverPrefs.mk "u1" "cg" 30, by decide, 0, by decide,
      Or.inl (by decide), by decide⟩,
   (C1_escalation_needed_iff (CheckInService.mk [] [] []) []
      "u2" 1800).2 (by decide)⟩

/-- Claim C2: for a registered user, `view_profile` returns exactly the
entries of the `name`/`age` universe whose key lies in the union of all
matching consent grants, in the fixed order `name` then `age`; an
ungranted field is absent (never null or placeholder), and no field
outside the union is ever returned. -/
theorem C2_view_profile_fields (s : ProfilesConsentStore)
    (audit : List AuditEntry) (user_id role : String) (p : Profile)
    (h : alist.get s.profiles user_id = some p) :
    ∃ out : ProfileViewOut,
      (s.view_profile audit user_id role).1 = Except.ok out ∧
      out.fields.map Prod.fst =
        ["name", "age"].filter
          (fun f => decide (f ∈ consentsUnion s.consents user_id role)) ∧
      (("name", FieldValue.str p.name) ∈ out.fields ↔
        "name" ∈ consentsUnion s.consents user_id role) ∧
      (("age", FieldValue.int p.age) ∈ out.fields ↔
        "age" ∈ consentsUnion s.consents user_id role) ∧
      (∀ kv ∈ out.fields,
        kv.1 ∈ consentsUnion s.consents user_id role ∧
          (kv.1 = "name" ∨ kv.1 = "age")) := by
  refine ⟨ProfileViewOut.mk
    ((if "name" ∈ consentsUnion s.consents user_id role
      then [("name", FieldValue.str p.name)] else []) ++
     (if "age" ∈ consentsUnion s.consents user_id role
      then [("age", FieldValue.int p.age)] else [])), ?_, ?_, ?_, ?_, ?_⟩
  · rw [view_profile_some s audit user_id role p h]
  · by_cases hn : "name" ∈ consentsUnion s.consents user_id role <;>
      by_cases ha : "age" ∈ consentsUnion s.consents user_id role <;>
        simp [hn, ha]
  · by_cases hn : "name" ∈ consentsUnion s.consents user_id role <;>
      by_cases ha : "age" ∈ consentsUnion s.consents user_id role <;>
        simp [hn, ha]
  · by_cases hn : "name" ∈ consentsUnion s.consents user_id role <;>
      by_cases ha : "age" ∈ consentsUnion s.consents user_id role <;>
        simp [hn, ha]
  · intro kv hkv
    by_cases hn : "name" ∈ consentsUnion s.consents user_id role <;>
      by_cases ha : "age" ∈ consentsUnion s.consents user_id role <;>
        simp [hn, ha] at hkv <;> aesop

/-- Witness for C2: a store granting only `name` to role `doctor` yields a
view with exactly the `name` entry. -/
theorem C2_view_profile_fields_witness :
    ∃ out : ProfileViewOut,
      ((ProfilesConsentStore.mk [("u1", Profile.mk "u1" "Alice" 70)]
          [ConsentRecord.mk "u1" "doctor" {"name"} 0]).view_profile []
          "u1" "doctor").1 = Except.ok out ∧
      out.fields.map Prod.fst =
        ["name", "age"].filter
          (fun f => decide (f ∈ consentsUnion
            [ConsentRecord.mk "u1" "doctor" {"name"} 0] "u1" "doctor")) ∧
      (("name", FieldValue.str "Alice") ∈ out.fields ↔
        "name" ∈ consentsUnion
          [ConsentRecord.mk "u1" "doctor" {"name"} 0] "u1" "doctor") ∧
      (("age", FieldValue.int 70) ∈ out.fields ↔
        "age" ∈ consentsUnion
          [ConsentRecord.mk "u1" "doctor" {"name"} 0] "u1" "doctor") ∧
      (∀ kv ∈ out.fields,
        kv.1 ∈ consentsUnion
          [ConsentRecord.mk "u1" "doctor" {"name"} 0] "u1" "doctor" ∧
          (kv.1 = "name" ∨ kv.1 = "age")) :=
  C2_view_profile_fields
    (ProfilesConsentStore.mk [("u1", Profile.mk "u1" "Alice" 70)]
      [ConsentRecord.mk "u1" "doctor" {"name"} 0])
    [] "u1" "doctor" (Profile.mk "u1" "Alice" 70) (by decide)

/-- Claim C3: the effective allowed-field set after a sequence of
`grant_consent` calls is the prior effective set joined with the set union
of all matching granted field sets; permuting the sequence does not change
it, and repeating a grant already in the sequence does not change it
(additive, idempotent, commutative union — a grant never revokes). -/
theorem C3_consent_union_properties (s : ProfilesConsentStore)
    (audit : List AuditEntry) (user_id role : String) :
    (∀ grants : List (ConsentGrantIn × Int),
      ProfilesConsentStore.get_allowed_fields
          (applyGrants s audit grants).1.consents user_id role =
        ProfilesConsentStore.get_allowed_fields s.consents user_id role ∪
          grantsUnion grants user_id role) ∧
    (∀ g₁ g₂ : List (ConsentGrantIn × Int), g₁.Perm g₂ →
      ProfilesConsentStore.get_allowed_fields
          (applyGrants s audit g₁).1.consents user_id role =
        ProfilesConsentStore.get_allowed_fields
          (applyGrants s audit g₂).1.consents user_id role) ∧
    (∀ (grants : List (ConsentGrantIn × Int)) (g : ConsentGrantIn × Int),
      g ∈ grants →
      ProfilesConsentStore.get_allowed_fields
          (applyGrants s audit (grants ++ [g])).1.consents user_id role =
        ProfilesConsentStore.get_allowed_fields
          (applyGrants s audit grants).1.consents user_id role) := by
  have hbase : ∀ grants : List (ConsentGrantIn × Int),
      ProfilesConsentStore.get_allowed_fields
          (applyGrants s audit grants).1.consents user_id role =
        ProfilesConsentStore.get_allowed_fields s.consents user_id role ∪
          grantsUnion grants user_id role := by
    intro grants
    rw [applyGrants_consents, ProfilesConsentStore.get_allowed_fields_append,
      get_allowed_fields_eq_consentsUnion (grants.map grantRecord),
      consentsUnion_map_grantRecord]
  refine ⟨hbase, ?_, ?_⟩
  · intro g₁ g₂ hperm
    rw [hbase, hbase, grantsUnion_perm _ _ user_id role hperm]
  · intro grants g hg
    rw [hbase, hbase, grantsUnion_append]
    by_cases hc : g.1.user_id = user_id ∧ g.1.viewer_role = role
    · have hsub := mem_subset_grantsUnion grants g user_id role hg hc
      have h1 : grantsUnion [g] user_id role =
          g.1.allowed_fields.toFinset := by
        simp [grantsUnion, hc]
      rw [h1, Finset.union_eq_left.mpr hsub]
    · have h1 : grantsUnion [g] user_id role = ∅ := by
        simp [grantsUnion, hc]
      rw [h1, Finset.union_empty]

/-- Witness for C3: swapping two grants leaves the effective set unchanged,
and repeating a grant leaves it unchanged. -/
theorem C3_consent_union_properties_witness :
    (ProfilesConsentStore.get_allowed_fields
        (applyGrants (ProfilesConsentStore.mk [] []) []
          [(ConsentGrantIn.mk "u1" "doctor" ["name"], 0),
           (ConsentGrantIn.mk "u1" "doctor" ["age"], 1)]).1.consents
        "u1" "doctor" =
      ProfilesConsentStore.get_allowed_fields
        (applyGrants (ProfilesConsentStore.mk [] []) []
          [(ConsentGrantIn.mk "u1" "doctor" ["age"], 1),
           (ConsentGrantIn.mk "u1" "doctor" ["name"], 0)]).1.consents
        "u1" "doctor") ∧
    (ProfilesConsentStore.get_allowed_fields
        (applyGrants (ProfilesConsentStore.mk [] []) []
          ([(ConsentGrantIn.mk "u1" "doctor" ["name"], 0)] ++
            [(ConsentGrantIn.mk "u1" "doctor" ["name"], 0)])).1.consents
        "u1" "doctor" =
      ProfilesConsentStore.get_allowed_fields
        (applyGrants (ProfilesConsentStore.mk [] []) []
          [(ConsentGrantIn.mk "u1" "doctor" ["name"], 0)]).1.consents
        "u1" "doctor") :=
  ⟨(C3_consent_union_properties (ProfilesConsentStore.mk [] []) []
      "u1" "doctor").2.1 _ _ (List.Perm.swap _ _ _),
   (C3_consent_union_properties (ProfilesConsentStore.mk [] []) []
      "u1" "doctor").2.2 _ _ (by decide)⟩

/-- Claim C4 counterexample: re-registering an existing `user_id` does not
fail with `DuplicateKey`; `add_profile` succeeds and the stored profile is
silently replaced by the new one. -/
theorem C4_counterexample :
    (((ProfilesConsentStore.mk [] []).add_profile []
          (ProfileCreate.mk "u1" "Alice" 70)).1.add_profile []
        (ProfileCreate.mk "u1" "Bob" 80)).1.profiles =
      [("u1", Profile.mk "u1" "Bob" 80)] := by decide

/-- Claim C4 (amended): a second `add_profile` call with the same
`user_id` succeeds and silently replaces the previously stored profile
wholesale (keyed last-write-wins); no `DuplicateKey` error exists. -/
theorem C4_amended_silent_overwrite (s : ProfilesConsentStore)
    (audit : List AuditEntry) (d : ProfileCreate) (p : Profile)
    (h : alist.get s.profiles d.user_id = some p) :
    alist.get (s.add_profile audit d).1.profiles d.user_id =
      some (Profile.mk d.user_id d.name d.age) := by
  simp [ProfilesConsentStore.add_profile, alist.get_set_self]

/-- Witness for the amended C4 at a concrete duplicate registration. -/
theorem C4_amended_silent_overwrite_witness :
    alist.get ((ProfilesConsentStore.mk
        [("u1", Profile.mk "u1" "Alice" 70)] []).add_profile []
        (ProfileCreate.mk "u1" "Bob" 80)).1.profiles "u1" =
      some (Profile.mk "u1" "Bob" 80) :=
  C4_amended_silent_overwrite _ [] _ (Profile.mk "u1" "Alice" 70)
    (by decide)

/-- Claim C5: each `evaluate_escalation` call appends exactly one
escalation record when the condition holds and none otherwise; the
decision ignores the existing escalation log (no deduplication or
cooldown), and a user whose `last_prompt` is unset never causes an
append. -/
theorem C5_escalation_append (svc : CheckInService) (audit : List AuditEntry)
    (user_id : String) (now : Int) :
    (∃ appended : List String,
      (svc.evaluate_escalation audit user_id now).2.1.escalations =
        svc.escalations ++ appended ∧
      appended.length =
        (if (svc.evaluate_escalation audit user_id now).1.escalation_needed
         then 1 else 0)) ∧
    (∀ es : List String,
      ((CheckInService.mk svc.prefs svc.state es).evaluate_escalation audit
          user_id now).1.escalation_needed =
        (svc.evaluate_escalation audit user_id now).1.escalation_needed) ∧
    ((stateOf svc user_id).last_prompt = none →
      (svc.evaluate_escalation audit user_id now).2.1.escalations =
        svc.escalations) := by
  refine ⟨?_, ?_, ?_⟩
  · rw [evaluate_escalation_escalations, evaluate_escalation_fst]
    cases hp : alist.get svc.prefs user_id with
    | none => exact ⟨[], by simp, by simp [shouldEscalate]⟩
    | some p =>
      by_cases hesc :
          shouldEscalate (some p) (stateOf svc user_id) now = true
      · exact ⟨[escalationMsg user_id p.caregiver_contact now],
          by simp [hesc], by simp [hesc]⟩
      · exact ⟨[], by simp [hesc], by simp [hesc]⟩
  · intro es
    rw [evaluate_escalation_fst, evaluate_escalation_fst]
    rfl
  · intro hnone
    rw [evaluate_escalation_escalations]
    cases hp : alist.get svc.prefs user_id with
    | none => rfl
    | some p => simp [shouldEscalate, hnone]

/-- Witness for C5: evaluating a user who never received a prompt leaves
the escalation log empty. -/
theorem C5_escalation_append_witness :
    ((CheckInService.mk [] [] []).evaluate_escalation [] "u1"
        0).2.1.escalations = ([] : List String) :=
  (C5_escalation_append (CheckInService.mk [] [] []) [] "u1" 0).2.2
    (by decide)

/-- Claim C6: `view_profile` on an unregistered `user_id` fails with the
not-found error and leaves the store and the audit log exactly as they
were (no partial update). -/
theorem C6_view_profile_not_found (s : ProfilesConsentStore)
    (audit : List AuditEntry) (user_id role : String)
    (h : alist.get s.profiles user_id = none) :
    s.view_profile audit user_id role =
      (Except.error ServiceError.notFound, s, audit) := by
  simp [ProfilesConsentStore.view_profile, h]

/-- Witness for C6 on an empty store. -/
theorem C6_view_profile_not_found_witness :
    (ProfilesConsentStore.mk [] []).view_profile [] "ghost" "doctor" =
      (Except.error ServiceError.notFound, ProfilesConsentStore.mk [] [],
        []) :=
  C6_view_profile_not_found _ [] "ghost" "doctor" (by decide)

/-- Claim C7 counterexample: `set_prefs` accepts a non-positive
`escalate_after_minutes` and an empty `user_id` without any error, storing
the prefs as given — contradicting the claim that such a call fails with
`InvalidInput` and that stored prefs always have a positive threshold. -/
theorem C7_counterexample :
    ((CheckInService.mk [] [] []).set_prefs []
        (CheckInPrefsIn.mk "" "caregiver-contact" 0)).1.prefs =
      [("", CaregiverPrefs.mk "" "caregiver-contact" 0)] := by decide

/-- Claim C7 (amended): `set_prefs` performs no input validation; it
always succeeds and stores the `CaregiverPrefs` exactly as supplied, for
any `escalate_after_minutes` (including zero and negative values) and any
`user_id` (including the empty string); no `InvalidInput` error exists. -/
theorem C7_amended_no_validation (svc : CheckInService)
    (audit : List AuditEntry) (d : CheckInPrefsIn) :
    alist.get (svc.set_prefs audit d).1.prefs d.user_id =
      some (CaregiverPrefs.mk d.user_id d.caregiver_contact
        d.escalate_after_minutes) := by
  simp [CheckInService.set_prefs, alist.get_set_self]

/-- Claim C8: every successful mutating or viewing call appends exactly
one audit entry with its matching action tag (`profile_create`,
`consent_grant`, `profile_view`, `checkin_set_prefs`,
`checkin_prompt_sent`, `checkin_response_received`, and
`checkin_escalation` for an escalating evaluation); the `profile_view`
entry carries the viewer role, not the profile owner, as actor. -/
theorem C8_audit_completeness (s : ProfilesConsentStore)
    (svc : CheckInService) (audit : List AuditEntry) (pd : ProfileCreate)
    (g : ConsentGrantIn) (cd : CheckInPrefsIn) (user_id role : String)
    (t now : Int) :
    ((s.add_profile audit pd).2 =
      audit ++ [AuditEntry.mk pd.user_id "profile_create" ""]) ∧
    ((s.grant_consent audit g t).2 =
      audit ++ [AuditEntry.mk g.user_id "consent_grant" g.viewer_role]) ∧
    (∀ p, alist.get s.profiles user_id = some p →
      (s.view_profile audit user_id role).2.2 =
        audit ++ [AuditEntry.mk role "profile_view"
          ("user_id=" ++ user_id)]) ∧
    ((svc.set_prefs audit cd).2 =
      audit ++ [AuditEntry.mk cd.user_id "checkin_set_prefs" ""]) ∧
    ((svc.send_prompt audit user_id now).2 =
      audit ++ [AuditEntry.mk user_id "checkin_prompt_sent" ""]) ∧
    ((svc.record_response audit user_id now).2 =
      audit ++ [AuditEntry.mk user_id "checkin_response_received" ""]) ∧
    ((svc.evaluate_escalation audit user_id now).1.escalation_needed =
        true →
      ∃ p, alist.get svc.prefs user_id = some p ∧
        (svc.evaluate_escalation audit user_id now).2.2 =
          audit ++ [AuditEntry.mk user_id "checkin_escalation"
            (escalationMsg user_id p.caregiver_contact now)]) := by
  refine ⟨rfl, rfl, ?_, rfl, rfl, rfl, ?_⟩
  · intro p hp
    rw [view_profile_some s audit user_id role p hp]
    rfl
  · intro hesc
    rw [evaluate_escalation_fst] at hesc
    rw [evaluate_escalation_audit]
    cases hp : alist.get svc.prefs user_id with
    | none =>
      rw [hp] at hesc
      simp [shouldEscalate] at hesc
    | some p =>
      rw [hp] at hesc
      simp only [CheckInStatusOut.escalation_needed] at hesc
      exact ⟨p, rfl, by simp [hesc, auditLog]⟩

/-- Witness for C8: a concrete profile view logs with the viewer role as
actor, and a concrete escalating evaluation logs `checkin_escalation`. -/
theorem C8_audit_completeness_witness :
    ((ProfilesConsentStore.mk [("u1", Profile.mk "u1" "Alice" 70)]
        []).view_profile [] "u1" "doctor").2.2 =
      [] ++ [AuditEntry.mk "doctor" "profile_view" ("user_id=" ++ "u1")] ∧
    ∃ p, alist.get (CheckInService.mk
          [("u1", CaregiverPrefs.mk "u1" "cg" 30)]
          [("u1", CheckInState.mk "u1" (some 0) none)] []).prefs "u1" =
        some p ∧
      ((CheckInService.mk [("u1", CaregiverPrefs.mk "u1" "cg" 30)]
          [("u1", CheckInState.mk "u1" (some 0) none)]
          []).evaluate_escalation [] "u1" 1800).2.2 =
        [] ++ [AuditEntry.mk "u1" "checkin_escalation"
          (escalationMsg "u1" p.caregiver_contact 1800)] :=
  ⟨(C8_audit_completeness
      (ProfilesConsentStore.mk [("u1", Profile.mk "u1" "Alice" 70)] [])
      (CheckInService.mk [("u1", CaregiverPrefs.mk "u1" "cg" 30)]
        [("u1", CheckInState.mk "u1" (some 0) none)] [])
      [] (ProfileCreate.mk "x" "x" 0) (ConsentGrantIn.mk "x" "x" [])
      (CheckInPrefsIn.mk "x" "x" 1) "u1" "doctor" 0 1800).2.2.1
      (Profile.mk "u1" "Alice" 70) (by decide),
   (C8_audit_completeness
      (ProfilesConsentStore.mk [("u1", Profile.mk "u1" "Alice" 70)] [])
      (CheckInService.mk [("u1", CaregiverPrefs.mk "u1" "cg" 30)]
        [("u1", CheckInState.mk "u1" (some 0) none)] [])
      [] (ProfileCreate.mk "x" "x" 0) (ConsentGrantIn.mk "x" "x" [])
      (CheckInPrefsIn.mk "x" "x" 1) "u1" "doctor" 0 1800).2.2.2.2.2.2
      (by decide)⟩

/-- Claim C9: `set_prefs` replaces any existing `CaregiverPrefs` for the
user wholesale (keyed upsert, last-write-wins) without touching other
users, creates a `CheckInState` with both timestamps unset only when none
exists, leaves an existing `CheckInState` untouched, and does not touch
the escalations list. -/
theorem C9_set_prefs_upsert (svc : CheckInService) (audit : List AuditEntry)
    (d : CheckInPrefsIn) :
    (alist.get (svc.set_prefs audit d).1.prefs d.user_id =
      some (CaregiverPrefs.mk d.user_id d.caregiver_contact
        d.escalate_after_minutes)) ∧
    (∀ u, u ≠ d.user_id →
      alist.get (svc.set_prefs audit d).1.prefs u = alist.get svc.prefs u) ∧
    (alist.get svc.state d.user_id = none →
      (svc.set_prefs audit d).1.state =
        svc.state ++ [(d.user_id, freshState d.user_id)]) ∧
    (∀ st, alist.get svc.state d.user_id = some st →
      (svc.set_prefs audit d).1.state = svc.state) ∧
    (svc.set_prefs audit d).1.escalations = svc.escalations := by
  refine ⟨?_, ?_, ?_, ?_, rfl⟩
  · exact alist.get_set_self svc.prefs d.user_id _
  · intro u hu
    exact alist.get_set_ne svc.prefs d.user_id u _ hu
  · intro hnone
    exact alist.setdefault_snd_none svc.state d.user_id _ hnone
  · intro st hst
    exact alist.setdefault_snd_some svc.state d.user_id _ st hst

/-- Witness for C9: other users are untouched, a missing state is created
fresh, and an existing state is left as it was. -/
theorem C9_set_prefs_upsert_witness :
    alist.get ((CheckInService.mk [] [] []).set_prefs []
        (CheckInPrefsIn.mk "u1" "cg" 30)).1.prefs "u2" = none ∧
    ((CheckInService.mk [] [] []).set_prefs []
        (CheckInPrefsIn.mk "u1" "cg" 30)).1.state =
      [] ++ [("u1", freshState "u1")] ∧
    ((CheckInService.mk [] [("u1", CheckInState.mk "u1" (some 5) none)]
        []).set_prefs [] (CheckInPrefsIn.mk "u1" "cg" 30)).1.state =
      [("u1", CheckInState.mk "u1" (some 5) none)] := by
  refine ⟨?_, ?_, ?_⟩
  · rw [(C9_set_prefs_upsert (CheckInService.mk [] [] []) []
      (CheckInPrefsIn.mk "u1" "cg" 30)).2.1 "u2" (by decide)]
    decide
  · exact (C9_set_prefs_upsert (CheckInService.mk [] [] []) []
      (CheckInPrefsIn.mk "u1" "cg" 30)).2.2.1 (by decide)
  · exact (C9_set_prefs_upsert
      (CheckInService.mk [] [("u1", CheckInState.mk "u1" (some 5) none)]
        [])
      [] (CheckInPrefsIn.mk "u1" "cg" 30)).2.2.2.1
      (CheckInState.mk "u1" (some 5) none) (by decide)

/-- Claim C10: `send_prompt` updates only the `last_prompt` field of the
target user (creating the state if absent) and leaves that user's
`last_response`, every other user's state, the prefs map and the
escalations list unchanged; symmetrically `record_response` updates only
`last_response` and preserves `last_prompt`. -/
theorem C10_prompt_response_frame (svc : CheckInService)
    (audit : List AuditEntry) (user_id : String) (now : Int) :
    (alist.get (svc.send_prompt audit user_id now).1.state user_id =
      some { stateOf svc user_id with last_prompt := some now }) ∧
    (∀ u, u ≠ user_id →
      alist.get (svc.send_prompt audit user_id now).1.state u =
        alist.get svc.state u) ∧
    ((svc.send_prompt audit user_id now).1.prefs = svc.prefs) ∧
    ((svc.send_prompt audit user_id now).1.escalations = svc.escalations) ∧
    (alist.get (svc.record_response audit user_id now).1.state user_id =
      some { stateOf svc user_id with last_response := some now }) ∧
    (∀ u, u ≠ user_id →
      alist.get (svc.record_response audit user_id now).1.state u =
        alist.get svc.state u) ∧
    ((svc.record_response audit user_id now).1.prefs = svc.prefs) ∧
    ((svc.record_response audit user_id now).1.escalations =
      svc.escalations) := by
  refine ⟨?_, ?_, rfl, rfl, ?_, ?_, rfl, rfl⟩
  · have h : (svc.send_prompt audit user_id now).1.state =
        alist.set (alist.setdefault svc.state user_id
          (freshState user_id)).2 user_id
          { (alist.setdefault svc.state user_id (freshState user_id)).1 with
            last_prompt := some now } := rfl
    rw [h, alist.get_set_self, alist.setdefault_fst]
    rfl
  · intro u hu
    have h : (svc.send_prompt audit user_id now).1.state =
        alist.set (alist.setdefault svc.state user_id
          (freshState user_id)).2 user_id
          { (alist.setdefault svc.state user_id (freshState user_id)).1 with
            last_prompt := some now } := rfl
    rw [h, alist.get_set_ne _ _ _ _ hu,
      alist.get_setdefault_snd_ne _ _ _ _ hu]
  · have h : (svc.record_response audit user_id now).1.state =
        alist.set (alist.setdefault svc.state user_id
          (freshState user_id)).2 user_id
          { (alist.setdefault svc.state user_id (freshState user_id)).1 with
            last_response := some now } := rfl
    rw [h, alist.get_set_self, alist.setdefault_fst]
    rfl
  · intro u hu
    have h : (svc.record_response audit user_id now).1.state =
        alist.set (alist.setdefault svc.state user_id
          (freshState user_id)).2 user_id
          { (alist.setdefault svc.state user_id (freshState user_id)).1 with
            last_response := some now } := rfl
    rw [h, alist.get_set_ne _ _ _ _ hu,
      alist.get_setdefault_snd_ne _ _ _ _ hu]

/-- Witness for C10: sending a prompt to one user leaves another user's
stored state untouched. -/
theorem C10_prompt_response_frame_witness :
    alist.get ((CheckInService.mk []
        [("u2", CheckInState.mk "u2" none none)]
        []).send_prompt [] "u1" 7).1.state "u2" =
      some (CheckInState.mk "u2" none none) := by
  rw [(C10_prompt_response_frame
    (CheckInService.mk [] [("u2", CheckInState.mk "u2" none none)] [])
    [] "u1" 7).2.1 "u2" (by decide)]
  decide
